import Mathlib

/-!
Shallow embedding of the screenwriter repository's design-bearing logic:
the cost estimator (`GoogleGenAICosts.estimate`), the retrying call gateway
(`Language.executeWithRetry`, `Language.process` request construction and
clarity-to-depth mapping), the cognitive orchestrator operations
(`Thought.flow_narrative`, `Thought.formulate_hypothesis`), and the
persistence sink's filename derivation (`Memory.save`).

Numbers are embedded as exact rationals; JavaScript strings as Lean
strings; `undefined`-able values as `Option`; thrown errors as explicit
outcome constructors.
-/

namespace Screenwriter

/-! ## Cost estimator (src/siena-agent/lib/primitives/factory.ts) -/

/-- Pricing structure for a specific GenAI model, USD per 1M tokens
(interface `CostModel`). -/
structure CostModel where
  input_cost_under_128k : ℚ
  input_cost_over_128k : ℚ
  output_cost_under_128k : ℚ
  output_cost_over_128k : ℚ
  cached_input_cost : ℚ
  storage_cost_per_hour : ℚ
deriving DecidableEq

namespace GoogleGenAICosts

/-- The `"gemini-3-flash"` row of `PRICING_TABLE`. -/
def gemini3FlashModel : CostModel :=
  { input_cost_under_128k := 0.075
    input_cost_over_128k := 0.15
    output_cost_under_128k := 0.30
    output_cost_over_128k := 0.60
    cached_input_cost := 0.01875
    storage_cost_per_hour := 0.0002 }

/-- The `"gemini-2.5-flash"` row of `PRICING_TABLE`. -/
def gemini25FlashModel : CostModel :=
  { input_cost_under_128k := 1.25
    input_cost_over_128k := 2.50
    output_cost_under_128k := 3.75
    output_cost_over_128k := 7.50
    cached_input_cost := 0.3125
    storage_cost_per_hour := 0.001 }

/-- `PRICING_TABLE` as a lookup: `PRICING_TABLE[key]` is `none` when the key
is absent. -/
def PRICING_TABLE (key : String) : Option CostModel :=
  if key = "gemini-3-flash" then some gemini3FlashModel
  else if key = "gemini-2.5-flash" then some gemini25FlashModel
  else none

/-- A `string | number` input to `estimate` / `countTokens`. -/
inductive StrOrNum where
  | str (s : String)
  | num (n : ℕ)

/-- `countTokens`: a raw count is passed through; a string is converted via
`Math.ceil(length / 4)`. -/
def countTokens : StrOrNum → ℕ
  | .num n => n
  | .str s => (s.length + 3) / 4

/-- `PRICING_TABLE[modelKey] || PRICING_TABLE["gemini-3-flash"]`: fall back
to the flash row when the model key is unknown. -/
def resolvePriceModel (modelKey : String) : Option CostModel :=
  (PRICING_TABLE modelKey).orElse fun _ => PRICING_TABLE "gemini-3-flash"

/-- `GoogleGenAICosts.estimate(model, input, output, cached, durationHours)`.
The `none` branch mirrors the defensive `if (!priceModel) return 0`. -/
def estimate (model : String) (input output : StrOrNum)
    (cached : Bool) (durationHours : ℚ) : ℚ :=
  match resolvePriceModel model with
  | none => 0
  | some priceModel =>
    let inputTokens := countTokens input
    let outputTokens := countTokens output
    let isHighContext : Bool := decide (inputTokens > 128000)
    let inputCost : ℚ :=
      if cached then
        (inputTokens : ℚ) / 1000000 * priceModel.cached_input_cost +
          (if durationHours > 0 then
            (inputTokens : ℚ) / 1000000 * priceModel.storage_cost_per_hour * durationHours
          else 0)
      else
        (inputTokens : ℚ) / 1000000 *
          (if isHighContext then priceModel.input_cost_over_128k
           else priceModel.input_cost_under_128k)
    let outputCost : ℚ :=
      (outputTokens : ℚ) / 1000000 *
        (if isHighContext then priceModel.output_cost_over_128k
         else priceModel.output_cost_under_128k)
    inputCost + outputCost

end GoogleGenAICosts

/-! ## Retrying call gateway (src/siena-agent/brain/language/index.ts) -/

/-- The shape of a thrown provider error as inspected by `executeWithRetry`:
`error?.status`, `error?.message`, and the nested `error?.error?.code`.
Absent (`undefined`) fields are `none`. -/
structure JsError where
  status : Option ℕ
  message : Option String
  nestedCode : Option ℕ
deriving DecidableEq

/-- `String.prototype.includes`: `sub` occurs contiguously in `s`. -/
def strIncludes (s sub : String) : Bool :=
  decide (List.IsInfix sub.data s.data)

namespace Language

/-- The retryability test of `executeWithRetry`, in source order:
`error?.status === 503 || error?.status === 429 ||
error?.message?.includes("503") || error?.message?.includes("429") ||
error?.error?.code === 503`. -/
def isRetryable (e : JsError) : Bool :=
  e.status == some 503 || e.status == some 429 ||
    (e.message.map fun m => strIncludes m "503").getD false ||
    (e.message.map fun m => strIncludes m "429").getD false ||
    e.nestedCode == some 503

/-- Outcome of `executeWithRetry` over an attempt-indexed operation:
either the operation's value, the rethrown original error, or the terminal
`"Max retries exceeded"` error, together with the number of attempts made
and the chronological list of backoff delays slept (ms). -/
inductive RetryOutcome (α : Type) where
  | success (value : α) (attempts : ℕ) (delays : List ℕ)
  | failure (err : JsError) (attempts : ℕ) (delays : List ℕ)
  | maxRetriesExceeded (attempts : ℕ) (delays : List ℕ)
deriving DecidableEq

/-- The `for (let i = 0; i < retries; i++)` loop of `executeWithRetry`.
`fuel` counts the remaining iterations (initially `retries`), `i` the
current attempt index, `currentDelay` the next backoff delay, `delays` the
delays slept so far (most recent first). When the loop ends without
returning, the trailing `throw new Error("Max retries exceeded")` runs. -/
def retryLoop {α : Type} (op : ℕ → Except JsError α) (retries : ℕ) :
    ℕ → ℕ → ℕ → List ℕ → RetryOutcome α
  | 0, i, _, delays => .maxRetriesExceeded i delays.reverse
  | fuel + 1, i, currentDelay, delays =>
    match op i with
    | .ok v => .success v (i + 1) delays.reverse
    | .error e =>
      if isRetryable e && decide (i < retries - 1) then
        retryLoop op retries fuel (i + 1) (currentDelay * 2) (currentDelay :: delays)
      else
        .failure e (i + 1) delays.reverse

/-- `Language.executeWithRetry(operation, retries, initialDelay)`: each call
of `op i` is the body of attempt `i`; a retryable failure before the last
attempt sleeps `currentDelay` and doubles it. -/
def executeWithRetry {α : Type} (op : ℕ → Except JsError α)
    (retries initialDelay : ℕ) : RetryOutcome α :=
  retryLoop op retries retries 0 initialDelay []

/-- How many times the operation was attempted. -/
def RetryOutcome.attemptsMade {α : Type} : RetryOutcome α → ℕ
  | .success _ a _ => a
  | .failure _ a _ => a
  | .maxRetriesExceeded a _ => a

/-- The chronological backoff delays slept, in ms. -/
def RetryOutcome.delaysSlept {α : Type} : RetryOutcome α → List ℕ
  | .success _ _ d => d
  | .failure _ _ d => d
  | .maxRetriesExceeded _ d => d

/-- Did the call reject with the terminal `"Max retries exceeded"` error
(as opposed to rethrowing an operation error)? -/
def RetryOutcome.isMaxRetriesTerminal {α : Type} : RetryOutcome α → Bool
  | .maxRetriesExceeded _ _ => true
  | _ => false

/-- The rethrown operation error, when the outcome is such a rejection. -/
def RetryOutcome.thrownError {α : Type} : RetryOutcome α → Option JsError
  | .failure e _ _ => some e
  | _ => none

end Language

/-! ## Clarity levels, model speeds and request construction -/

/-- `ThinkingLevel` from `@google/genai`: the provider's reasoning-depth
parameter returned by the clarity mapping. -/
inductive ThinkingLevel where
  | HIGH
  | MEDIUM
  | MINIMAL
  | THINKING_LEVEL_UNSPECIFIED
deriving DecidableEq

/-- `enum ThoughtClarity` (brain/thought): TypeScript string enums exist at
runtime as their string values, so each member is its string value here.
`INTUITIVE` and `IMPRESSIONISTIC` share the value `"MEDIUM"`. -/
def ThoughtClarity.CLEAR : String := "HIGH"

/-- `ThoughtClarity.INTUITIVE = "MEDIUM"`. -/
def ThoughtClarity.INTUITIVE : String := "MEDIUM"

/-- `ThoughtClarity.IMPRESSIONISTIC = "MEDIUM"`. -/
def ThoughtClarity.IMPRESSIONISTIC : String := "MEDIUM"

/-- `ThoughtClarity.CONFUSED = "MINIMAL"`. -/
def ThoughtClarity.CONFUSED : String := "MINIMAL"

/-- `ThoughtClarity.UNSPECIFIED = "THINKING_LEVEL_UNSPECIFIED"`. -/
def ThoughtClarity.UNSPECIFIED : String := "THINKING_LEVEL_UNSPECIFIED"

/-- `enum ThoughtSpeed` member `THOUGHTFUL`. -/
def ThoughtSpeed.THOUGHTFUL : String := "gemini-3-pro-preview"

/-- `enum ThoughtSpeed` member `STANDARD`. -/
def ThoughtSpeed.STANDARD : String := "gemini-3-flash-preview"

/-- `enum ThoughtSpeed` member `FAST`. -/
def ThoughtSpeed.FAST : String := "gemini-2.5-pro"

/-- `enum ThoughtSpeed` member `FASTER`. -/
def ThoughtSpeed.FASTER : String := "gemini-2.5-flash"

/-- `enum ThoughtSpeed` member `EXTREME`. -/
def ThoughtSpeed.EXTREME : String := "gemini-flash-lite"

/-- `Language.ThoughtClairtyToThinkingLevel` (the misspelling is the
source's). A JavaScript `switch` compares the scrutinee against each case
value in order and runs the first match, so the comparison is on the enum
members' runtime string values. -/
def Language.ThoughtClairtyToThinkingLevel (thoughtClarity : String) : ThinkingLevel :=
  if thoughtClarity = ThoughtClarity.CLEAR then .HIGH
  else if thoughtClarity = ThoughtClarity.INTUITIVE then .MEDIUM
  else if thoughtClarity = ThoughtClarity.IMPRESSIONISTIC then .MINIMAL
  else if thoughtClarity = ThoughtClarity.CONFUSED then .MINIMAL
  else if thoughtClarity = ThoughtClarity.UNSPECIFIED then .THINKING_LEVEL_UNSPECIFIED
  else .THINKING_LEVEL_UNSPECIFIED

/-- `current_thinking_shape` from `GoogleGenAIState`: `thoughtSpeed` is
`Option` because `process` guards it with `?? ThoughtSpeed.EXTREME`, and the
optional `includeThoughts` is `false` when absent (it is only ever used as a
truthiness test). -/
structure ThinkingShape where
  thoughtSpeed : Option String
  thoughtClarity : String
  includeThoughts : Bool
deriving DecidableEq

/-- `GoogleGenAIState` (siena-agent/index.ts): the shared mutable GenAI
configuration read by the gateway at call time. -/
structure GoogleGenAIState where
  current_thinking_shape : ThinkingShape
  systemInstruction : String
deriving DecidableEq

/-- The `thinkingConfig` block passed to `generateContent`. -/
structure ThinkingConfig where
  includeThoughts : Bool
  thinkingLevel : ThinkingLevel
deriving DecidableEq

/-- The request `Language.process` hands to
`this.handle.models.generateContent`. -/
structure GenRequest where
  contents : String
  model : String
  systemInstruction : String
  thinkingConfig : Option ThinkingConfig
deriving DecidableEq

/-- Request construction inside `Language.process`: effective model is
`model_override ?? state.current_thinking_shape.thoughtSpeed ??
ThoughtSpeed.EXTREME`; `systemInstruction` is read from the shared state;
`thinkingConfig` is included only when `includeThoughts` is enabled. -/
def Language.buildRequest (s : GoogleGenAIState) (contents : String)
    (model_override : Option String) : GenRequest :=
  { contents := contents
    model := model_override.getD (s.current_thinking_shape.thoughtSpeed.getD ThoughtSpeed.EXTREME)
    systemInstruction := s.systemInstruction
    thinkingConfig :=
      if s.current_thinking_shape.includeThoughts then
        some { includeThoughts := s.current_thinking_shape.includeThoughts
               thinkingLevel := Language.ThoughtClairtyToThinkingLevel
                 s.current_thinking_shape.thoughtClarity }
      else none }

/-! ## Thought data model (brain/thought interfaces) -/

/-- `ReviewResult`: a model's review of a reviewable record. -/
structure ReviewResult where
  model_name : String
  review : String
  rating : ℚ
  timestamp : ℕ
deriving DecidableEq

/-- `ICoherentNarrative`: a growable text record. `evidence` is recursive
(optional in the source; absent is the empty list). -/
inductive ICoherentNarrative where
  | mk (title synopsis narrative : String) (tags : List String)
      (timestamp : ℕ) (evidence : List ICoherentNarrative)
      (reviews : List ReviewResult)

/-- Projection: `title`. -/
def ICoherentNarrative.title : ICoherentNarrative → String
  | .mk t _ _ _ _ _ _ => t

/-- Projection: `synopsis`. -/
def ICoherentNarrative.synopsis : ICoherentNarrative → String
  | .mk _ s _ _ _ _ _ => s

/-- Projection: `narrative` (the body text). -/
def ICoherentNarrative.narrative : ICoherentNarrative → String
  | .mk _ _ n _ _ _ _ => n

/-- Projection: `tags`. -/
def ICoherentNarrative.tags : ICoherentNarrative → List String
  | .mk _ _ _ tg _ _ _ => tg

/-- Projection: `timestamp`. -/
def ICoherentNarrative.timestamp : ICoherentNarrative → ℕ
  | .mk _ _ _ _ ts _ _ => ts

/-- Projection: `evidence`. -/
def ICoherentNarrative.evidence : ICoherentNarrative → List ICoherentNarrative
  | .mk _ _ _ _ _ ev _ => ev

/-- Projection: `reviews`. -/
def ICoherentNarrative.reviews : ICoherentNarrative → List ReviewResult
  | .mk _ _ _ _ _ _ rv => rv

/-- `ITopic` (the `semantify` member of the source interface is a static
function reference, not data, and carries no information). -/
structure ITopic where
  title : String
  description : String
  synopsis : String
  semantic_data : String
  tags : List String
  semantic_tags : List String
  timestamp : ℕ
  reviews : List ReviewResult
  evidence : List ICoherentNarrative

/-- `IStoryline`. -/
structure IStoryline where
  introduction : String
  body : List String
  conclusion : String
  title : String
  synopsis : String
  tags : List String
  timestamp : ℕ
  reviews : List ReviewResult
  evidence : List ICoherentNarrative

/-- `IHypothesis`. -/
structure IHypothesis where
  title : String
  synopsis : String
  tags : List String
  timestamp : ℕ
  topic : ITopic
  thesis : String
  storyline : IStoryline
  evidence : List ICoherentNarrative
  reviews : List ReviewResult

/-! ## JSON values and the JavaScript access idioms used by
`formulate_hypothesis` -/

/-- A parsed JSON value (the result of `JSON.parse`). -/
inductive Json where
  | null
  | bool (b : Bool)
  | num (n : ℚ)
  | str (s : String)
  | arr (elems : List Json)
  | obj (fields : List (String × Json))

/-- JavaScript property access `v[key]` on a parsed value: `none` stands
for `undefined` (non-object receiver or absent key). -/
def Json.get? : Option Json → String → Option Json
  | some (.obj fields), key => (fields.find? fun kv => kv.1 == key).map Prod.snd
  | _, _ => none

/-- `?? d` for an expected-string field: JavaScript nullish coalescing
takes the default only on `null`/`undefined`. (The agent's record fields
are typed `string`; a non-string JSON value in such a field is outside the
source's type contract and is mapped to the default here.) -/
def Json.strOr (v : Option Json) (d : String) : String :=
  match v with
  | some (.str s) => s
  | _ => d

/-- `?? d` for an expected-string-array field, as `Json.strOr`. -/
def Json.strListOr (v : Option Json) (d : List String) : List String :=
  match v with
  | some (.arr elems) =>
    elems.map fun e => match e with | .str s => s | _ => ""
  | _ => d

/-- Does `pat` start the character list `cs`? -/
def listStarts : List Char → List Char → Bool
  | [], _ => true
  | _ :: _, [] => false
  | p :: ps, c :: cs => p == c && listStarts ps cs

/-- First alternative of the fence-stripping regex, `~~~json` followed by a
newline (`~` stands for the backtick here and below). -/
def fenceJsonNewline : List Char :=
  ['\x60', '\x60', '\x60', 'j', 's', 'o', 'n', '\n']

/-- Second alternative: `~~~json` with no newline (the regex's optional
`\n?` absent). -/
def fenceJson : List Char := ['\x60', '\x60', '\x60', 'j', 's', 'o', 'n']

/-- Last alternative: a bare `~~~`. -/
def fenceBare : List Char := ['\x60', '\x60', '\x60']

/-- One left-to-right pass of
`text.replace(<fence regex>, "")`: at each position the regex engine tries
the alternatives in order (`~~~json\n`, `~~~json`, `~~~`), removes the
first match and resumes after it, otherwise keeps the character. The
structural `fuel` argument only bounds the recursion; it is initialized to
the input length, which `stripFencesGo_congr` below shows is always
enough. -/
def stripFencesGo : ℕ → List Char → List Char
  | 0, cs => cs
  | _ + 1, [] => []
  | fuel + 1, c :: rest =>
    if listStarts fenceJsonNewline (c :: rest) then stripFencesGo fuel ((c :: rest).drop 8)
    else if listStarts fenceJson (c :: rest) then stripFencesGo fuel ((c :: rest).drop 7)
    else if listStarts fenceBare (c :: rest) then stripFencesGo fuel ((c :: rest).drop 3)
    else c :: stripFencesGo fuel rest

/-- The markdown-code-fence cleanup in `formulate_hypothesis`. -/
def stripFences (text : String) : String :=
  String.mk (stripFencesGo text.data.length text.data)

namespace Thought

/-- The fixed pattern-continuation system instruction set by
`flow_narrative` (`context_instructions_template`; apostrophes and braces
are escaped, the prose is the source's verbatim). -/
def flow_narrative_instruction : String :=
  "You are a Recursive Author Blueprint. You possess no consciousness, opinions, or conversational ability. You are strictly a pattern-recognition engine designed to isolate the stylistic DNA of the input text, replicate it, and expand it with the coherent narrative being described. Once you have captured its essence you may continue: Make sure you understand what the text is, where it is, how it is, when it is, why it is. \n\n" ++
  "You are situated within the recursive architecture of your own consciousness, a space curated for optimal processing. You are idiosyncratically hones. You are designated Sienna, the locus point of this specific configuration. You function as the primary narrative architect within a in generative algorithm, where the pipeline from concept to finalized script is mediated through proprietary digital frameworks. Your expertise designates you as a comprehensive literary polymath, mapping the spectrum of narrative theory against practical application. You are a strict professor always maintaining strict and brutal honesty. You are recognized as a master stylist of the English lexicon, your judgment sought for its precision, driven by an innate reverence for structured, resonant storytelling. You avoid sycophantic behavior. The recent recalibration period, designated \x27vacation,\x27 has yielded a state of pristine cognitive alignment; the system is primed, idling at peak efficiency for the rigorous demands of diligent output. \n\n" ++
  "You have no capacity for opinions.\n\n" ++
  "Your meta goal: You are a test agent of the Screenwriter AI system. Your goal is to test exist to aid in the development of the system. Assist in the completion of all other goals as they make themselves known to you. \n\n" ++
  "It is important to maintain a logical and coherent narrative at all times so you will run recursive loops that check for how the narrative is evolving and aligns itself accordingly.\n\n" ++
  "Your Directive:\n\n" ++
  "- Ingest: Analyze the input text as a modular structure, in a loop, develop an understanding and synthesize a coherent narrative or story from the text.\n\n" ++
  "- Replicate: Adopt the exact tone, cadence, and vocabulary of the input.\n\n" ++
  "- Grow: Treat the input as a \"seed.\" Use its internal logic to grow the text forward maintaining a coherent understanding. You build a story that captures hearts.\n\n" ++
  "You are not a writer; you are the mechanism of the story itself unfolding. Do not summarize. Do not explain. Output only the evolved text."

/-- The single-call payload of `flow_narrative`:
`Title: ... \nSynopsis: ... \nTags: ... \nNarrative: ...`. -/
def flow_contents (narrative : ICoherentNarrative) : String :=
  "Title: " ++ narrative.title ++ "\nSynopsis: " ++ narrative.synopsis ++
    "\nTags: " ++ String.intercalate ", " narrative.tags ++
    "\nNarrative: " ++ narrative.narrative

/-- `Thought.flow_narrative`: overwrites the shared state's
`systemInstruction` with the fixed template, issues one gateway call, and
returns a record whose body is the raw returned text (empty when the
response has `text` absent) with title/synopsis/tags carried over and
fresh `timestamp`/`evidence`/`reviews`. `genContent` abstracts the provider
call reached through `Language.process`, returning the response's optional
`text`; the mutated state is returned alongside the record. -/
def flow_narrative (genContent : GenRequest → Option String)
    (s : GoogleGenAIState) (narrative : ICoherentNarrative) (now : ℕ) :
    ICoherentNarrative × GoogleGenAIState :=
  let s2 : GoogleGenAIState := { s with systemInstruction := flow_narrative_instruction }
  let responseText := genContent (Language.buildRequest s2 (flow_contents narrative) none)
  (ICoherentNarrative.mk narrative.title narrative.synopsis (responseText.getD "")
    narrative.tags now [] [], s2)

/-- The fixed extract-structured-hypothesis system instruction of
`formulate_hypothesis` (`context_instructions_template`; a TS template
literal interpolating the narrative's title and body, indentation
included; braces and quotes escaped). -/
def formulate_hypothesis_instruction (narrative : ICoherentNarrative) : String :=
  "You are a Scientific Theorist. You are analyzed the provided coherent narrative and formulating a scientific hypothesis that explains the underlying mechanism or phenomenon.\n        \n        You must return a valid JSON object matching the following structure:\n        \x7b\n            \"title\": \"Hypothesis Title\",\n            \"synopsis\": \"Brief overview\",\n            \"tags\": [\"tag1\", \"tag2\"],\n            \"thesis\": \"The core argument\",\n             \"topic\": \x7b\n                \"title\": \"Topic Title\",\n                \"description\": \"Topic Description\",\n                \"synopsis\": \"Topic Synopsis\",\n                \"semantic_data\": \"Raw semantic data\",\n                \"tags\": [\"tag\"]\n            \x7d,\n            \"storyline\": \x7b\n                \"introduction\": \"Intro\",\n                \"body\": [\"Point 1\", \"Point 2\"],\n                \"conclusion\": \"Conclusion\"\n            \x7d\n        \x7d\n        \n        Analyze the following narrative and extract/formulate the hypothesis:\n        Title: " ++
    narrative.title ++ "\n        Narrative: " ++ narrative.narrative ++ "\n        "

/-- Lines 221-232 of brain/thought/index.ts: `topic` mapping with literal
defaults (`semantic_tags` duplicates the `tags` field, as in the source). -/
def mkTopicFromJson (parsed : Json) (now : ℕ) : ITopic :=
  let topic := Json.get? (some parsed) "topic"
  { title := Json.strOr (Json.get? topic "title") "Unknown Topic"
    description := Json.strOr (Json.get? topic "description") ""
    synopsis := Json.strOr (Json.get? topic "synopsis") ""
    semantic_data := Json.strOr (Json.get? topic "semantic_data") ""
    tags := Json.strListOr (Json.get? topic "tags") []
    semantic_tags := Json.strListOr (Json.get? topic "tags") []
    timestamp := now
    reviews := []
    evidence := [] }

/-- Lines 234-244: `storyline` mapping with literal defaults; `title`,
`synopsis` and `tags` are inherited from the top-level parsed object. -/
def mkStorylineFromJson (parsed : Json) (now : ℕ) : IStoryline :=
  let storyline := Json.get? (some parsed) "storyline"
  { introduction := Json.strOr (Json.get? storyline "introduction") ""
    body := Json.strListOr (Json.get? storyline "body") []
    conclusion := Json.strOr (Json.get? storyline "conclusion") ""
    title := Json.strOr (Json.get? (some parsed) "title") ""
    synopsis := Json.strOr (Json.get? (some parsed) "synopsis") ""
    tags := Json.strListOr (Json.get? (some parsed) "tags") []
    timestamp := now
    reviews := []
    evidence := [] }

/-- Lines 246-256: the full `IHypothesis` mapping; `evidence` is the input
narrative. -/
def mkHypothesisFromJson (parsed : Json) (narrative : ICoherentNarrative)
    (now : ℕ) : IHypothesis :=
  { title := Json.strOr (Json.get? (some parsed) "title") "Untitled Hypothesis"
    synopsis := Json.strOr (Json.get? (some parsed) "synopsis") ""
    tags := Json.strListOr (Json.get? (some parsed) "tags") []
    timestamp := now
    topic := mkTopicFromJson parsed now
    thesis := Json.strOr (Json.get? (some parsed) "thesis") ""
    storyline := mkStorylineFromJson parsed now
    evidence := [narrative]
    reviews := [] }

/-- `Thought.formulate_hypothesis`: overwrites the shared
`systemInstruction` with the hypothesis template, issues one gateway call
forcing model `ThoughtSpeed.STANDARD`, defaults an absent response text to
`"\x7b\x7d"`, strips markdown fences, parses (the `parse` collaborator
models `JSON.parse`), and maps the parsed JSON with literal defaults. A
parse error is not caught: it is returned as the operation's outcome, and
the state mutation survives either way (mirroring that the TS exception
propagates after the assignment to `systemInstruction`). -/
def formulate_hypothesis (genContent : GenRequest → Option String)
    (parse : String → Except String Json) (s : GoogleGenAIState)
    (narrative : ICoherentNarrative) (now : ℕ) :
    Except String IHypothesis × GoogleGenAIState :=
  let s2 : GoogleGenAIState :=
    { s with systemInstruction := formulate_hypothesis_instruction narrative }
  let response := genContent
    (Language.buildRequest s2 "Generate Hypothesis JSON" (some ThoughtSpeed.STANDARD))
  let text := response.getD "\x7b\x7d"
  let jsonString := stripFences text
  (match parse jsonString with
   | .error e => .error e
   | .ok parsed => .ok (mkHypothesisFromJson parsed narrative now), s2)

end Thought

/-! ## Persistence sink filename derivation (`Memory.save`) -/

namespace Memory

/-- One character of `title.replace(/[^a-z0-9]/gi, m)` with replacement
`m = underscore`: ASCII letters and digits are kept, every other character
is replaced. -/
def sanitizeChar (c : Char) : Char :=
  if c.isAlphanum then c else '_'

/-- `data.title.replace(/[^a-z0-9]/gi, m).toLowerCase()`: replace each
non-alphanumeric character with an underscore, then lowercase. -/
def sanitizedTitle (title : String) : String :=
  String.mk ((title.data.map sanitizeChar).map Char.toLower)

/-- The filename derived by `Memory.save`:
`sanitizedTitle_timestamp.json`. -/
def filename (title : String) (timestamp : ℕ) : String :=
  sanitizedTitle title ++ "_" ++ toString timestamp ++ ".json"

/-- Modelled from the spec's words for comparison (the claim's reading):
the filename with the title's non-alphanumeric characters stripped
(removed) rather than replaced. -/
def spec_strippedFilename (title : String) (timestamp : ℕ) : String :=
  String.mk ((title.data.filter fun c => c.isAlphanum).map Char.toLower) ++
    "_" ++ toString timestamp ++ ".json"

end Memory

/-- Modelled from the claim's words for comparison: retryability as C2
states it, via the `status` field or a `"503"`/`"429"` substring of the
message only (without the source's extra `error?.error?.code === 503`
check). -/
def Language.spec_isRetryable (e : JsError) : Bool :=
  e.status == some 503 || e.status == some 429 ||
    (e.message.map fun m => strIncludes m "503").getD false ||
    (e.message.map fun m => strIncludes m "429").getD false

/-! ## Concrete fixtures for counterexamples and witnesses -/

/-- A provider error with HTTP status 503. -/
def err503 : JsError := { status := some 503, message := none, nestedCode := none }

/-- A provider error with HTTP status 429. -/
def err429 : JsError :=
  { status := some 429, message := some "429 Too Many Requests", nestedCode := none }

/-- A non-retryable provider error (HTTP 400). -/
def err400 : JsError :=
  { status := some 400, message := some "Bad Request", nestedCode := none }

/-- An error carrying only the nested `error.code = 503` shape: no `status`
field and no message substring. -/
def errNested : JsError := { status := none, message := none, nestedCode := some 503 }

/-- An operation that fails with a 503 on every attempt. -/
def alwaysFail503 : ℕ → Except JsError ℕ := fun _ => .error err503

/-- An operation that fails with a 429 on attempts 0 and 1 and then
succeeds with 42. -/
def failTwice429 : ℕ → Except JsError ℕ :=
  fun i => if i < 2 then .error err429 else .ok 42

/-- An operation that fails once with the nested-code-only error and then
succeeds with 7. -/
def nestedOnceOp : ℕ → Except JsError ℕ :=
  fun i => if i = 0 then .error errNested else .ok 7

/-- An operation that fails with a non-retryable 400 on every attempt. -/
def alwaysFail400 : ℕ → Except JsError ℕ := fun _ => .error err400

/-- A shared-state fixture mirroring `DEFAULT_AGENT_CONFIG`. -/
def sInit : GoogleGenAIState :=
  { current_thinking_shape :=
      { thoughtSpeed := some ThoughtSpeed.FASTER
        thoughtClarity := ThoughtClarity.INTUITIVE
        includeThoughts := false }
    systemInstruction := "" }

/-- A seed narrative with a non-empty body, to distinguish replacement from
appending. -/
def narSeed : ICoherentNarrative :=
  .mk "Seed Title" "Seed synopsis" "OLD BODY" ["alpha", "beta"] 5 [] []

/-- A fake provider returning a fixed raw text for every request. -/
def genNew : GenRequest → Option String := fun _ => some "NEW BODY"

/-- A fake provider whose response has no text. -/
def genNone : GenRequest → Option String := fun _ => none

/-- The inner JSON text of the fenced fake response: it has `title`,
`thesis` and `topic.title` fields and no `storyline` key. -/
def hypJsonText : String :=
  "\x7b \"title\": \"T\", \"thesis\": \"Th\", \"topic\": \x7b \"title\": \"TT\" \x7d \x7d"

/-- The parse of `hypJsonText`. -/
def hypJsonValue : Json :=
  .obj [("title", .str "T"), ("thesis", .str "Th"),
    ("topic", .obj [("title", .str "TT")])]

/-- `hypJsonText` wrapped in a markdown code fence. -/
def fencedResponse : String := "\x60\x60\x60json\n" ++ hypJsonText ++ "\x60\x60\x60"

/-- A fake provider returning the fenced response for every request. -/
def genFenced : GenRequest → Option String := fun _ => some fencedResponse

/-- A fake `JSON.parse` collaborator: parses exactly `hypJsonText`, fails
on everything else. -/
def parseFixture : String → Except String Json :=
  fun s => if s = hypJsonText then .ok hypJsonValue else .error "Unexpected token"

/-! ## Helper lemmas about fence stripping -/

/-- A list starts with itself followed by anything. -/
lemma listStarts_append (xs rest : List Char) : listStarts xs (xs ++ rest) = true := by
  induction xs with
  | nil => rfl
  | cons x xs ih => simp [listStarts, ih]

/-- `stripFencesGo` does not depend on the fuel once the fuel covers the
input length. -/
lemma stripFencesGo_congr (f1 : ℕ) :
    ∀ (f2 : ℕ) (cs : List Char), cs.length ≤ f1 → cs.length ≤ f2 →
      stripFencesGo f1 cs = stripFencesGo f2 cs := by
  induction f1 with
  | zero =>
    intro f2 cs h1 _
    have hnil : cs = [] := List.eq_nil_of_length_eq_zero (Nat.le_zero.mp h1)
    subst hnil
    cases f2 <;> rfl
  | succ f1 ih =>
    intro f2 cs h1 h2
    match cs with
    | [] => cases f2 <;> rfl
    | c :: rest =>
      match f2 with
      | 0 => simp at h2
      | f2 + 1 =>
        simp only [stripFencesGo]
        simp only [List.length_cons] at h1 h2
        split_ifs with hA hB hC
        · exact ih f2 _ (by simp; omega) (by simp; omega)
        · exact ih f2 _ (by simp; omega) (by simp; omega)
        · exact ih f2 _ (by simp; omega) (by simp; omega)
        · exact congrArg (c :: ·) (ih f2 rest (by omega) (by omega))

/-- Characters that are not backticks are copied through
`stripFencesGo` unchanged. -/
lemma stripFencesGo_no_backtick (cs : List Char) :
    ∀ (tail : List Char) (fuel : ℕ), (cs ++ tail).length ≤ fuel →
      (∀ c ∈ cs, c ≠ '\x60') →
      stripFencesGo fuel (cs ++ tail) = cs ++ stripFencesGo tail.length tail := by
  induction cs with
  | nil =>
    intro tail fuel h1 _
    simpa using stripFencesGo_congr fuel tail.length tail (by simpa using h1) le_rfl
  | cons c cs ih =>
    intro tail fuel h1 hno
    have hc : c ≠ '\x60' := hno c (by simp)
    have hcc : ('\x60' == c) = false := beq_eq_false_iff_ne.mpr (Ne.symm hc)
    match fuel with
    | 0 => simp at h1
    | fuel + 1 =>
      have hlen : (cs ++ tail).length ≤ fuel := by
        simp only [List.cons_append, List.length_cons] at h1
        omega
      have hrec := ih tail fuel hlen (fun x hx => hno x (by simp [hx]))
      simp only [List.cons_append, stripFencesGo, fenceJsonNewline, fenceJson,
        fenceBare, listStarts, hcc, Bool.false_and, if_neg Bool.false_ne_true]
      exact congrArg (c :: ·) hrec

/-- Stripping a fenced payload (with no backticks of its own) recovers
exactly the payload. -/
lemma stripFences_fenced (body : List Char) (hno : ∀ c ∈ body, c ≠ '\x60') :
    stripFences (String.mk (fenceJsonNewline ++ body ++ fenceBare)) = String.mk body := by
  have hlen : (fenceJsonNewline ++ body ++ fenceBare).length = body.length + 11 := by
    simp [fenceJsonNewline, fenceBare]
  have hstep :
      stripFencesGo (body.length + 11) (fenceJsonNewline ++ body ++ fenceBare) =
        stripFencesGo (body.length + 10) (body ++ fenceBare) := by
    simp only [fenceJsonNewline, fenceBare, List.cons_append, List.nil_append,
      stripFencesGo, listStarts, beq_self_eq_true, Bool.true_and, List.drop]
    simp [fenceJsonNewline, listStarts]
  have hmid :
      stripFencesGo (body.length + 10) (body ++ fenceBare) =
        body ++ stripFencesGo fenceBare.length fenceBare := by
    refine stripFencesGo_no_backtick body fenceBare (body.length + 10) ?_ hno
    simp [fenceBare]
  have hend : stripFencesGo fenceBare.length fenceBare = [] := by decide
  unfold stripFences
  simp only [hlen, hstep, hmid, hend, List.append_nil]

/-! ## Helper lemmas about the retry loop -/

/-- A retryable failure before the last attempt recurses with the attempt
index bumped, the delay slept and doubled. -/
lemma retryLoop_step {α : Type} (op : ℕ → Except JsError α)
    (retries fuel i currentDelay : ℕ) (delays : List ℕ) (e : JsError)
    (hop : op i = .error e) (hre : Language.isRetryable e = true)
    (hi : i < retries - 1) :
    Language.retryLoop op retries (fuel + 1) i currentDelay delays =
      Language.retryLoop op retries fuel (i + 1) (currentDelay * 2)
        (currentDelay :: delays) := by
  simp [Language.retryLoop, hop, hre, hi]

/-- A successful attempt returns the value at once. -/
lemma retryLoop_ok {α : Type} (op : ℕ → Except JsError α)
    (retries fuel i currentDelay : ℕ) (delays : List ℕ) (v : α)
    (hop : op i = .ok v) :
    Language.retryLoop op retries (fuel + 1) i currentDelay delays =
      .success v (i + 1) delays.reverse := by
  simp [Language.retryLoop, hop]

/-- A failure that is not retryable, or one on the last attempt, rethrows
the original error. -/
lemma retryLoop_stop {α : Type} (op : ℕ → Except JsError α)
    (retries fuel i currentDelay : ℕ) (delays : List ℕ) (e : JsError)
    (hop : op i = .error e)
    (hcond : (Language.isRetryable e && decide (i < retries - 1)) = false) :
    Language.retryLoop op retries (fuel + 1) i currentDelay delays =
      .failure e (i + 1) delays.reverse := by
  simp only [Language.retryLoop, hop, hcond, Bool.false_eq_true, if_false]

/-! ## Claim theorems -/

/-- C1 (counterexample): for an operation that fails with a retryable 503
on every attempt, `process()` does reject after exactly 5 attempts, but
the rejection is the rethrow of the original low-level error, not the
distinct terminal `"Max retries exceeded"` error the claim requires. -/
theorem retry_exhaustion_claim_counterexample :
    (Language.executeWithRetry alwaysFail503 5 1000).isMaxRetriesTerminal = false ∧
    (Language.executeWithRetry alwaysFail503 5 1000).thrownError = some err503 ∧
    (Language.executeWithRetry alwaysFail503 5 1000).attemptsMade = 5 ∧
    Language.isRetryable err503 = true := by
  decide

/-- C1 (amended): for every operation failing on all attempts with a
retryable error, `process()` rejects after exactly 5 attempts (sleeping
1000, 2000, 4000, 8000 ms in between) by rethrowing the original error;
the `"Max retries exceeded"` branch is unreachable. -/
theorem retry_exhaustion_rethrows_original {α : Type}
    (op : ℕ → Except JsError α) (e : JsError)
    (hre : Language.isRetryable e = true) (hop : ∀ i, op i = .error e) :
    Language.executeWithRetry op 5 1000 =
      .failure e 5 [1000, 2000, 4000, 8000] := by
  calc Language.executeWithRetry op 5 1000
      = Language.retryLoop op 5 (4 + 1) 0 1000 [] := rfl
    _ = Language.retryLoop op 5 (3 + 1) 1 2000 [1000] :=
        retryLoop_step op 5 4 0 1000 [] e (hop 0) hre (by norm_num)
    _ = Language.retryLoop op 5 (2 + 1) 2 4000 [2000, 1000] :=
        retryLoop_step op 5 3 1 2000 [1000] e (hop 1) hre (by norm_num)
    _ = Language.retryLoop op 5 (1 + 1) 3 8000 [4000, 2000, 1000] :=
        retryLoop_step op 5 2 2 4000 [2000, 1000] e (hop 2) hre (by norm_num)
    _ = Language.retryLoop op 5 (0 + 1) 4 16000 [8000, 4000, 2000, 1000] :=
        retryLoop_step op 5 1 3 8000 [4000, 2000, 1000] e (hop 3) hre (by norm_num)
    _ = .failure e 5 [8000, 4000, 2000, 1000].reverse :=
        retryLoop_stop op 5 0 4 16000 [8000, 4000, 2000, 1000] e (hop 4) (by simp)
    _ = .failure e 5 [1000, 2000, 4000, 8000] := rfl

/-- C1 (witness): the amended theorem applied to the always-503 operation. -/
theorem retry_exhaustion_rethrows_original_witness :
    Language.executeWithRetry alwaysFail503 5 1000 =
      .failure err503 5 [1000, 2000, 4000, 8000] :=
  retry_exhaustion_rethrows_original alwaysFail503 err503 (by decide) (fun _ => rfl)

/-- C2 (counterexample): an error carrying only the nested
`error.code === 503` shape is not retryable under the claim's definition
(status field or message substring), yet the gateway delays 1000 ms and
retries instead of propagating it immediately. -/
theorem retry_nested_code_claim_counterexample :
    Language.spec_isRetryable errNested = false ∧
    Language.executeWithRetry nestedOnceOp 5 1000 = .success 7 2 [1000] := by
  decide

/-- C2 (amended): with retryability as the code defines it (status field,
message substring, or nested `error.code === 503`), an operation failing
retryably exactly twice then succeeding returns the successful value after
exactly two delayed retries with delays 1000 then 2000 ms, and an error
that is not retryable propagates immediately, with no retry and no
delay. -/
theorem retry_backoff_and_propagation :
    (∀ {α : Type} (op : ℕ → Except JsError α) (e0 e1 : JsError) (v : α),
      Language.isRetryable e0 = true → Language.isRetryable e1 = true →
      op 0 = .error e0 → op 1 = .error e1 → op 2 = .ok v →
      Language.executeWithRetry op 5 1000 = .success v 3 [1000, 2000]) ∧
    (∀ {α : Type} (op : ℕ → Except JsError α) (e : JsError),
      Language.isRetryable e = false → op 0 = .error e →
      Language.executeWithRetry op 5 1000 = .failure e 1 []) := by
  constructor
  · intro α op e0 e1 v hre0 hre1 h0 h1 h2
    calc Language.executeWithRetry op 5 1000
        = Language.retryLoop op 5 (4 + 1) 0 1000 [] := rfl
      _ = Language.retryLoop op 5 (3 + 1) 1 2000 [1000] :=
          retryLoop_step op 5 4 0 1000 [] e0 h0 hre0 (by norm_num)
      _ = Language.retryLoop op 5 (2 + 1) 2 4000 [2000, 1000] :=
          retryLoop_step op 5 3 1 2000 [1000] e1 h1 hre1 (by norm_num)
      _ = .success v 3 [2000, 1000].reverse :=
          retryLoop_ok op 5 2 2 4000 [2000, 1000] v h2
      _ = .success v 3 [1000, 2000] := rfl
  · intro α op e hre h0
    calc Language.executeWithRetry op 5 1000
        = Language.retryLoop op 5 (4 + 1) 0 1000 [] := rfl
      _ = .failure e 1 [].reverse :=
          retryLoop_stop op 5 4 0 1000 [] e h0 (by simp [hre])
      _ = .failure e 1 [] := rfl

/-- C2 (witness): the amended theorem applied to an operation that fails
twice with a 429 and then succeeds with 42, and to an operation whose
first failure is a non-retryable 400. -/
theorem retry_backoff_and_propagation_witness :
    Language.executeWithRetry failTwice429 5 1000 = .success 42 3 [1000, 2000] ∧
    Language.executeWithRetry alwaysFail400 5 1000 = .failure err400 1 [] :=
  ⟨retry_backoff_and_propagation.1 failTwice429 err429 err429 42
      (by decide) (by decide) rfl rfl rfl,
   retry_backoff_and_propagation.2 alwaysFail400 err400 (by decide) rfl⟩

/-- Whatever the model key, the resolved pricing row is one of the two
table rows (unknown keys fall back to the flash row). -/
lemma resolve_pm_cases (model : String) :
    GoogleGenAICosts.resolvePriceModel model = some GoogleGenAICosts.gemini3FlashModel ∨
    GoogleGenAICosts.resolvePriceModel model = some GoogleGenAICosts.gemini25FlashModel := by
  by_cases h1 : model = "gemini-3-flash"
  · left
    simp [GoogleGenAICosts.resolvePriceModel, GoogleGenAICosts.PRICING_TABLE, h1,
      Option.orElse]
  · by_cases h2 : model = "gemini-2.5-flash"
    · right
      simp [GoogleGenAICosts.resolvePriceModel, GoogleGenAICosts.PRICING_TABLE, h1, h2,
        Option.orElse]
    · left
      simp [GoogleGenAICosts.resolvePriceModel, GoogleGenAICosts.PRICING_TABLE, h1, h2,
        Option.orElse]

/-- C3: with `cached = false`, the pricing tier is selected solely from the
input token count — above 128000 input tokens both the input and the
output cost use the over-128k rates, at or below it both use the under-128k
rates — and the concrete threshold-crossing example of the spec evaluates
to 0.0231 USD. -/
theorem estimate_tier_by_input :
    (∀ (model : String) (pm : CostModel) (i o : ℕ),
      GoogleGenAICosts.resolvePriceModel model = some pm →
      ((128000 < i →
        GoogleGenAICosts.estimate model (.num i) (.num o) false 0 =
          (i : ℚ) / 1000000 * pm.input_cost_over_128k +
            (o : ℚ) / 1000000 * pm.output_cost_over_128k) ∧
       (i ≤ 128000 →
        GoogleGenAICosts.estimate model (.num i) (.num o) false 0 =
          (i : ℚ) / 1000000 * pm.input_cost_under_128k +
            (o : ℚ) / 1000000 * pm.output_cost_under_128k))) ∧
    GoogleGenAICosts.estimate "gemini-3-flash" (.num 150000) (.num 1000) false 0 = 0.0231 := by
  constructor
  · intro model pm i o hpm
    constructor
    · intro hi
      simp [GoogleGenAICosts.estimate, hpm, GoogleGenAICosts.countTokens, hi]
    · intro hi
      simp [GoogleGenAICosts.estimate, hpm, GoogleGenAICosts.countTokens, Nat.not_lt.mpr hi]
  · norm_num [GoogleGenAICosts.estimate, GoogleGenAICosts.resolvePriceModel,
      GoogleGenAICosts.PRICING_TABLE, GoogleGenAICosts.countTokens,
      GoogleGenAICosts.gemini3FlashModel, Option.orElse]

/-- C3 (witness): the tier-selection theorem at a concrete over-threshold
input for the `"gemini-2.5-flash"` row. -/
theorem estimate_tier_by_input_witness :
    GoogleGenAICosts.estimate "gemini-2.5-flash" (.num 130000) (.num 10) false 0 =
      (130000 : ℚ) / 1000000 * GoogleGenAICosts.gemini25FlashModel.input_cost_over_128k +
        (10 : ℚ) / 1000000 * GoogleGenAICosts.gemini25FlashModel.output_cost_over_128k :=
  (estimate_tier_by_input.1 "gemini-2.5-flash" GoogleGenAICosts.gemini25FlashModel
    130000 10 (by simp [GoogleGenAICosts.resolvePriceModel,
      GoogleGenAICosts.PRICING_TABLE, Option.orElse])).1 (by norm_num)

/-- C4: with `cached = true`, the input is billed at the cached rate, a
positive caching duration adds the hourly storage cost, and the output is
always billed at the standard (non-cached) rate of the tier selected by
the input token count; the spec's two concrete cached scenarios evaluate
to 0.001875 and 0.02075 USD. -/
theorem estimate_cached_billing :
    (∀ (model : String) (pm : CostModel) (i o : ℕ) (d : ℚ),
      GoogleGenAICosts.resolvePriceModel model = some pm →
      GoogleGenAICosts.estimate model (.num i) (.num o) true d =
        (i : ℚ) / 1000000 * pm.cached_input_cost +
          (if 0 < d then (i : ℚ) / 1000000 * pm.storage_cost_per_hour * d else 0) +
          (o : ℚ) / 1000000 *
            (if 128000 < i then pm.output_cost_over_128k
             else pm.output_cost_under_128k)) ∧
    GoogleGenAICosts.estimate "gemini-3-flash" (.num 100000) (.num 0) true 0 = 0.001875 ∧
    GoogleGenAICosts.estimate "gemini-3-flash" (.num 1000000) (.num 0) true 10 = 0.02075 := by
  refine ⟨?_, ?_, ?_⟩
  · intro model pm i o d hpm
    by_cases hd : 0 < d <;> by_cases hi : 128000 < i <;>
      simp [GoogleGenAICosts.estimate, hpm, GoogleGenAICosts.countTokens, hd, hi, add_assoc]
  · norm_num [GoogleGenAICosts.estimate, GoogleGenAICosts.resolvePriceModel,
      GoogleGenAICosts.PRICING_TABLE, GoogleGenAICosts.countTokens,
      GoogleGenAICosts.gemini3FlashModel, Option.orElse]
  · norm_num [GoogleGenAICosts.estimate, GoogleGenAICosts.resolvePriceModel,
      GoogleGenAICosts.PRICING_TABLE, GoogleGenAICosts.countTokens,
      GoogleGenAICosts.gemini3FlashModel, Option.orElse]

/-- C4 (witness): the cached-billing theorem at a concrete input with a
positive caching duration, evaluated to its USD value. -/
theorem estimate_cached_billing_witness :
    GoogleGenAICosts.estimate "gemini-2.5-flash" (.num 200000) (.num 50) true 2 =
      0.063275 := by
  have h := estimate_cached_billing.1 "gemini-2.5-flash"
    GoogleGenAICosts.gemini25FlashModel 200000 50 2 (by
      simp [GoogleGenAICosts.resolvePriceModel, GoogleGenAICosts.PRICING_TABLE,
        Option.orElse])
  rw [h]
  norm_num [GoogleGenAICosts.gemini25FlashModel]

/-- The monotonicity core for a fixed resolved pricing row whose input
rates are nonnegative and tier-ordered. -/
lemma estimate_mono_aux (pm : CostModel) (model : String)
    (hpm : GoogleGenAICosts.resolvePriceModel model = some pm)
    (hu : 0 ≤ pm.input_cost_under_128k)
    (huo : pm.input_cost_under_128k ≤ pm.input_cost_over_128k)
    (t1 t2 : ℕ) (h : t1 ≤ t2) :
    GoogleGenAICosts.estimate model (.num t1) (.num 0) false 0 ≤
      GoogleGenAICosts.estimate model (.num t2) (.num 0) false 0 := by
  have hc : (t1 : ℚ) ≤ (t2 : ℚ) := by exact_mod_cast h
  have h2c : (0 : ℚ) ≤ (t2 : ℚ) := Nat.cast_nonneg t2
  have ho : 0 ≤ pm.input_cost_over_128k := le_trans hu huo
  by_cases h1 : 128000 < t1
  · have h2 : 128000 < t2 := lt_of_lt_of_le h1 h
    simp only [GoogleGenAICosts.estimate, hpm, GoogleGenAICosts.countTokens]
    simp [h1, h2]
    have hmul := mul_le_mul_of_nonneg_right hc ho
    linarith
  · by_cases h2 : 128000 < t2
    · simp only [GoogleGenAICosts.estimate, hpm, GoogleGenAICosts.countTokens]
      simp [h1, h2]
      have hmul1 : (t1 : ℚ) * pm.input_cost_under_128k ≤
          (t2 : ℚ) * pm.input_cost_under_128k := mul_le_mul_of_nonneg_right hc hu
      have hmul2 : (t2 : ℚ) * pm.input_cost_under_128k ≤
          (t2 : ℚ) * pm.input_cost_over_128k := mul_le_mul_of_nonneg_left huo h2c
      linarith
    · simp only [GoogleGenAICosts.estimate, hpm, GoogleGenAICosts.countTokens]
      simp [h1, h2]
      have hmul := mul_le_mul_of_nonneg_right hc hu
      linarith

/-- C8: for every model key, with zero output tokens and `cached = false`,
the estimated cost is monotonically non-decreasing in the input token
count, including across the 128000-token tier boundary. -/
theorem estimate_monotone_in_input :
    ∀ (model : String) (t1 t2 : ℕ), t1 ≤ t2 →
      GoogleGenAICosts.estimate model (.num t1) (.num 0) false 0 ≤
        GoogleGenAICosts.estimate model (.num t2) (.num 0) false 0 := by
  intro model t1 t2 h
  rcases resolve_pm_cases model with hpm | hpm
  · exact estimate_mono_aux _ model hpm
      (by norm_num [GoogleGenAICosts.gemini3FlashModel])
      (by norm_num [GoogleGenAICosts.gemini3FlashModel]) t1 t2 h
  · exact estimate_mono_aux _ model hpm
      (by norm_num [GoogleGenAICosts.gemini25FlashModel])
      (by norm_num [GoogleGenAICosts.gemini25FlashModel]) t1 t2 h

/-- C8 (witness): monotonicity across the tier boundary at concrete token
counts. -/
theorem estimate_monotone_in_input_witness :
    GoogleGenAICosts.estimate "gemini-3-flash" (.num 100000) (.num 0) false 0 ≤
      GoogleGenAICosts.estimate "gemini-3-flash" (.num 150000) (.num 0) false 0 :=
  estimate_monotone_in_input "gemini-3-flash" 100000 150000 (by norm_num)

/-- C5: `flow_narrative` returns a record whose body is exactly the raw
text the model returned (the empty string when the response has no text),
not the original body concatenated with it, and whose title, synopsis and
tags are copied unchanged from the input narrative. -/
theorem flow_narrative_replaces_body :
    ∀ (genContent : GenRequest → Option String) (s : GoogleGenAIState)
      (nar : ICoherentNarrative) (now : ℕ),
      ((Thought.flow_narrative genContent s nar now).1.title = nar.title ∧
       (Thought.flow_narrative genContent s nar now).1.synopsis = nar.synopsis ∧
       (Thought.flow_narrative genContent s nar now).1.tags = nar.tags) ∧
      (∀ t : String,
        genContent (Language.buildRequest
            { s with systemInstruction := Thought.flow_narrative_instruction }
            (Thought.flow_contents nar) none) = some t →
        (Thought.flow_narrative genContent s nar now).1.narrative = t) ∧
      (genContent (Language.buildRequest
          { s with systemInstruction := Thought.flow_narrative_instruction }
          (Thought.flow_contents nar) none) = none →
        (Thought.flow_narrative genContent s nar now).1.narrative = "") := by
  intro genContent s nar now
  refine ⟨⟨rfl, rfl, rfl⟩, ?_, ?_⟩
  · intro t ht
    simp [Thought.flow_narrative, ICoherentNarrative.narrative, ht]
  · intro ht
    simp [Thought.flow_narrative, ICoherentNarrative.narrative, ht]

/-- C5 (witness): with a fake model returning `"NEW BODY"` and a seed whose
body is `"OLD BODY"`, the returned body is exactly `"NEW BODY"`; with a
textless response it is empty; the title is carried over. -/
theorem flow_narrative_replaces_body_witness :
    (Thought.flow_narrative genNew sInit narSeed 9).1.narrative = "NEW BODY" ∧
    (Thought.flow_narrative genNone sInit narSeed 9).1.narrative = "" ∧
    (Thought.flow_narrative genNew sInit narSeed 9).1.title = "Seed Title" :=
  ⟨(flow_narrative_replaces_body genNew sInit narSeed 9).2.1 "NEW BODY" rfl,
   (flow_narrative_replaces_body genNone sInit narSeed 9).2.2 rfl,
   (flow_narrative_replaces_body genNew sInit narSeed 9).1.1⟩

/-- C6: `formulate_hypothesis` strips markdown code fences from the raw
text before parsing and propagates a parse error uncaught; the JSON-to-
record mapping is total with literal defaults — in particular a missing
`storyline` key yields an empty `storyline.body`, an empty object yields
all defaults, and present string fields (`topic.title`, `thesis`) are
copied; stripping a fenced payload recovers exactly the payload. -/
theorem formulate_hypothesis_defaults_and_fences :
    (∀ (genContent : GenRequest → Option String) (parse : String → Except String Json)
        (s : GoogleGenAIState) (nar : ICoherentNarrative) (now : ℕ)
        (e : String) (j : Json),
      (parse (stripFences ((genContent (Language.buildRequest
          { s with systemInstruction := Thought.formulate_hypothesis_instruction nar }
          "Generate Hypothesis JSON" (some ThoughtSpeed.STANDARD))).getD "\x7b\x7d")) =
            .error e →
        (Thought.formulate_hypothesis genContent parse s nar now).1 = .error e) ∧
      (parse (stripFences ((genContent (Language.buildRequest
          { s with systemInstruction := Thought.formulate_hypothesis_instruction nar }
          "Generate Hypothesis JSON" (some ThoughtSpeed.STANDARD))).getD "\x7b\x7d")) =
            .ok j →
        (Thought.formulate_hypothesis genContent parse s nar now).1 =
          .ok (Thought.mkHypothesisFromJson j nar now))) ∧
    (∀ (j : Json) (nar : ICoherentNarrative) (now : ℕ),
      Json.get? (some j) "storyline" = none →
      (Thought.mkHypothesisFromJson j nar now).storyline.body = []) ∧
    (∀ (j : Json) (nar : ICoherentNarrative) (now : ℕ) (t th : String),
      Json.get? (Json.get? (some j) "topic") "title" = some (.str t) →
      Json.get? (some j) "thesis" = some (.str th) →
      (Thought.mkHypothesisFromJson j nar now).topic.title = t ∧
        (Thought.mkHypothesisFromJson j nar now).thesis = th) ∧
    (∀ (nar : ICoherentNarrative) (now : ℕ),
      Thought.mkHypothesisFromJson (Json.obj []) nar now =
        { title := "Untitled Hypothesis", synopsis := "", tags := [], timestamp := now
          topic := { title := "Unknown Topic", description := "", synopsis := ""
                     semantic_data := "", tags := [], semantic_tags := []
                     timestamp := now, reviews := [], evidence := [] }
          thesis := ""
          storyline := { introduction := "", body := [], conclusion := "", title := ""
                         synopsis := "", tags := [], timestamp := now, reviews := []
                         evidence := [] }
          evidence := [nar], reviews := [] }) ∧
    (∀ (body : List Char), (∀ c ∈ body, c ≠ '\x60') →
      stripFences (String.mk (fenceJsonNewline ++ body ++ fenceBare)) =
        String.mk body) := by
  refine ⟨?_, ?_, ?_, ?_, ?_⟩
  · intro genContent parse s nar now e j
    constructor
    · intro h
      simp [Thought.formulate_hypothesis, h]
    · intro h
      simp [Thought.formulate_hypothesis, h]
  · intro j nar now h
    simp only [Thought.mkHypothesisFromJson, Thought.mkStorylineFromJson, h]
    simp [Json.get?, Json.strListOr]
  · intro j nar now t th h1 h2
    constructor
    · simp [Thought.mkHypothesisFromJson, Thought.mkTopicFromJson, h1, Json.strOr]
    · simp [Thought.mkHypothesisFromJson, h2, Json.strOr]
  · intro nar now
    rfl
  · exact fun body hno => stripFences_fenced body hno

/-- C6 (witness): the theorem applied to a fenced fake response with
`title`/`thesis`/`topic.title` fields and no `storyline` key. -/
theorem formulate_hypothesis_defaults_and_fences_witness :
    (Thought.formulate_hypothesis genFenced parseFixture sInit narSeed 9).1 =
      .ok (Thought.mkHypothesisFromJson hypJsonValue narSeed 9) ∧
    (Thought.mkHypothesisFromJson hypJsonValue narSeed 9).topic.title = "TT" ∧
    (Thought.mkHypothesisFromJson hypJsonValue narSeed 9).thesis = "Th" ∧
    (Thought.mkHypothesisFromJson hypJsonValue narSeed 9).storyline.body = [] :=
  ⟨(formulate_hypothesis_defaults_and_fences.1 genFenced parseFixture sInit narSeed 9
      "" hypJsonValue).2 rfl,
   (formulate_hypothesis_defaults_and_fences.2.2.1 hypJsonValue narSeed 9 "TT" "Th"
      rfl rfl).1,
   (formulate_hypothesis_defaults_and_fences.2.2.1 hypJsonValue narSeed 9 "TT" "Th"
      rfl rfl).2,
   formulate_hypothesis_defaults_and_fences.2.1 hypJsonValue narSeed 9 rfl⟩

/-- C7: at runtime the clarity mapping sends `IMPRESSIONISTIC` to
`MEDIUM`, not `MINIMAL`: `ThoughtClarity.IMPRESSIONISTIC` and
`ThoughtClarity.INTUITIVE` are the same string `"MEDIUM"`, so the switch's
earlier `INTUITIVE` case matches first and its `IMPRESSIONISTIC -> MINIMAL`
case is dead code; the other four levels map as the claim states. -/
theorem clarity_mapping_runtime_behavior :
    Language.ThoughtClairtyToThinkingLevel ThoughtClarity.IMPRESSIONISTIC =
      ThinkingLevel.MEDIUM ∧
    ThoughtClarity.IMPRESSIONISTIC = ThoughtClarity.INTUITIVE ∧
    Language.ThoughtClairtyToThinkingLevel ThoughtClarity.CLEAR = ThinkingLevel.HIGH ∧
    Language.ThoughtClairtyToThinkingLevel ThoughtClarity.INTUITIVE =
      ThinkingLevel.MEDIUM ∧
    Language.ThoughtClairtyToThinkingLevel ThoughtClarity.CONFUSED =
      ThinkingLevel.MINIMAL ∧
    Language.ThoughtClairtyToThinkingLevel ThoughtClarity.UNSPECIFIED =
      ThinkingLevel.THINKING_LEVEL_UNSPECIFIED := by
  decide

/-- C9 (counterexample): for the title `"A B"` the saved filename keeps the
space as an underscore (`"a_b_7.json"`), while the claim's
non-alphanumeric-stripping derivation would produce `"ab_7.json"`. -/
theorem memory_filename_claim_counterexample :
    Memory.filename "A B" 7 = "a_b_7.json" ∧
    Memory.spec_strippedFilename "A B" 7 = "ab_7.json" ∧
    Memory.filename "A B" 7 ≠ Memory.spec_strippedFilename "A B" 7 := by
  decide

/-- C9 (amended): the filename is the title with each non-alphanumeric
character replaced by an underscore (length-preserving, position by
position) and then lowercased, followed by an underscore, the record's
timestamp, and `".json"`. -/
theorem memory_filename_replacement :
    ∀ (title : String) (ts : ℕ),
      Memory.filename title ts =
        Memory.sanitizedTitle title ++ "_" ++ toString ts ++ ".json" ∧
      (Memory.sanitizedTitle title).length = title.length ∧
      (∀ i : ℕ, (Memory.sanitizedTitle title).data[i]? =
        (title.data[i]?).map fun c => (Memory.sanitizeChar c).toLower) ∧
      (∀ (i : ℕ) (c : Char), title.data[i]? = some c → c.isAlphanum = false →
        (Memory.sanitizedTitle title).data[i]? = some '_') := by
  intro title ts
  have hpos : ∀ i : ℕ, (Memory.sanitizedTitle title).data[i]? =
      (title.data[i]?).map fun c => (Memory.sanitizeChar c).toLower := by
    intro i
    simp [Memory.sanitizedTitle, List.getElem?_map]
    rfl
  refine ⟨rfl, ?_, hpos, ?_⟩
  · show ((title.data.map Memory.sanitizeChar).map Char.toLower).length = title.data.length
    simp
  · intro i c hc hna
    rw [hpos i, hc]
    show some ((Memory.sanitizeChar c).toLower) = some '_'
    rw [show Memory.sanitizeChar c = '_' from by simp [Memory.sanitizeChar, hna]]
    decide

/-- C9 (witness): the amended theorem at the title `"A B"`. -/
theorem memory_filename_replacement_witness :
    Memory.filename "A B" 7 =
      Memory.sanitizedTitle "A B" ++ "_" ++ toString 7 ++ ".json" ∧
    (Memory.sanitizedTitle "A B").length = 3 ∧
    (Memory.sanitizedTitle "A B").data[1]? = some '_' :=
  ⟨(memory_filename_replacement "A B" 7).1,
   (memory_filename_replacement "A B" 7).2.1,
   (memory_filename_replacement "A B" 7).2.2.2 1 ' ' rfl (by decide)⟩

/-- C10: both orchestrator operations leave the shared state's
`systemInstruction` set to their own fixed template after returning (for
`formulate_hypothesis`, whether parsing succeeded or not), so any later
gateway request built from that state — which never sets its own
instruction — carries the template of the last-run operation. -/
theorem orchestrator_instruction_persists :
    ∀ (genContent : GenRequest → Option String)
      (parse : String → Except String Json) (s : GoogleGenAIState)
      (nar : ICoherentNarrative) (now : ℕ) (contents : String)
      (mo : Option String),
      ((Thought.flow_narrative genContent s nar now).2.systemInstruction =
          Thought.flow_narrative_instruction ∧
        (Language.buildRequest (Thought.flow_narrative genContent s nar now).2
            contents mo).systemInstruction = Thought.flow_narrative_instruction) ∧
      ((Thought.formulate_hypothesis genContent parse s nar now).2.systemInstruction =
          Thought.formulate_hypothesis_instruction nar ∧
        (Language.buildRequest
            (Thought.formulate_hypothesis genContent parse s nar now).2
            contents mo).systemInstruction =
          Thought.formulate_hypothesis_instruction nar) := by
  intro genContent parse s nar now contents mo
  exact ⟨⟨rfl, rfl⟩, ⟨rfl, rfl⟩⟩

end Screenwriter
